import Mathlib

/-!
Shallow embedding of two renderer source files of the xterm.js repository:

* `src/browser/renderer/dom/DomRenderer.ts` — selection-rectangle geometry
  (`handleSelectionChanged` / `_createSelectionElement`), the batched font
  metrics probe (`_batchedMetrics` / `_cacheMetrics`) and row-element
  refreshing (`_refreshRowElements` / `handleResize`);
* the unnamed canvas renderer file — `ForegroundRenderLayer.render`,
  `ForegroundRenderLayer.resize` (atlas regeneration) and
  `CharAtlasGenerator.generate`.

JavaScript numbers are modelled as `Int` where subtraction may go negative
(selection geometry) and as `Nat` elsewhere; `getBoundingClientRect` widths
are modelled as `Rat`.
-/

/-! ## Selection geometry (`DomRenderer.handleSelectionChanged`) -/

/-- One selection `div` produced by `_createSelectionElement(row, colStart,
colEnd, rowCount)`: the element's CSS box is `top = row * cellHeight`,
`left = colStart * cellWidth`, `width = (colEnd - colStart) * cellWidth`,
`height = rowCount * cellHeight`, so we record the four integer arguments. -/
structure SelRect where
  row : Int
  colStart : Int
  colEnd : Int
  rowCount : Int
deriving DecidableEq, Repr

/-- The selection rectangles appended to the selection container by
`handleSelectionChanged(start, end, columnSelectMode)` when both endpoints are
present, translated line by line from DomRenderer.ts lines 340–386.
`start`/`end` are `(col, row)` pairs in absolute buffer coordinates; `ydisp`
is the scroll offset, `rows`/`cols` the viewport size. -/
def computeRects (startP endP : Int × Int) (columnSelectMode : Bool)
    (ydisp rows cols : Int) : List SelRect :=
  let viewportStartRow := startP.2 - ydisp
  let viewportEndRow := endP.2 - ydisp
  let viewportCappedStartRow := max viewportStartRow 0
  let viewportCappedEndRow := min viewportEndRow (rows - 1)
  if viewportCappedStartRow ≥ rows ∨ viewportCappedEndRow < 0 then
    []
  else if columnSelectMode then
    let isXFlipped := startP.1 > endP.1
    [⟨viewportCappedStartRow,
      if isXFlipped then endP.1 else startP.1,
      if isXFlipped then startP.1 else endP.1,
      viewportCappedEndRow - viewportCappedStartRow + 1⟩]
  else
    let startCol := if viewportStartRow = viewportCappedStartRow then startP.1 else 0
    let endCol := if viewportCappedStartRow = viewportEndRow then endP.1 else cols
    let firstRect : SelRect := ⟨viewportCappedStartRow, startCol, endCol, 1⟩
    let middleRowsCount := viewportCappedEndRow - viewportCappedStartRow - 1
    let middleRect : SelRect := ⟨viewportCappedStartRow + 1, 0, cols, middleRowsCount⟩
    if viewportCappedStartRow ≠ viewportCappedEndRow then
      let endCol2 := if viewportEndRow = viewportCappedEndRow then endP.1 else cols
      [firstRect, middleRect, ⟨viewportCappedEndRow, 0, endCol2, 1⟩]
    else
      [firstRect, middleRect]

/-! ## Font metrics probe (`DomRenderer._batchedMetrics` / `_cacheMetrics`)

The `FontMetrics` enum constants of DomRenderer.ts lines 28–33. -/

def FontMetricsSTART : Nat := 32

def FontMetricsMAX : Nat := 256

def FontMetricsBATCH : Nat := 30

/-- The constant `FontMetrics.THRESHOLD = 0.005`, the allowed relative deviation. -/
def FontMetricsTHRESHOLD : Rat := 5 / 1000

/-- The mutable probe state of the renderer: `_fontMetrics` (a `Uint8Array`
of `FontMetrics.MAX` entries, modelled as a function on indices) and
`_metricsPos`. -/
structure MetricsState where
  fontMetrics : Nat → Nat
  metricsPos : Nat

/-- The reset `_cacheMetrics` performs: the table goes back to all-`0xFF` and rewinds the cursor to
`FontMetrics.START` (the enqueue on the idle queue is not part of the state
modelled here). -/
def cacheMetrics : MetricsState := ⟨fun _ => 0xFF, FontMetricsSTART⟩

/-- The value written for code point `i` by the measurement loop of
`_batchedMetrics`: `+(width < lower || width > upper)` where
`lower = 10 * cellWidth * (1 - THRESHOLD)` and
`upper = 10 * cellWidth * (1 + THRESHOLD)`; `measure i` is the
`getBoundingClientRect().width` of the span holding code point `i`
repeated 10 times. -/
def measuredFlag (measure : Nat → Rat) (cellWidth : Rat) (i : Nat) : Nat :=
  let lower := 10 * cellWidth * (1 - FontMetricsTHRESHOLD)
  let upper := 10 * cellWidth * (1 + FontMetricsTHRESHOLD)
  if measure i < lower ∨ measure i > upper then 1 else 0

/-- One call of `_batchedMetrics()` (DomRenderer.ts lines 110–150). `parent` is whether
`querySelector` finds the `.xterm-helpers` element; when absent the cursor is
rewound and `false` returned. Otherwise the batch `[metricsPos,
min (metricsPos + BATCH_SIZE) MAX)` is measured and written, the cursor
advances to the batch end, and the return value says whether batches remain
(on completion the cursor rewinds to `START`). -/
def batchedMetrics (parent : Bool) (measure : Nat → Rat) (cellWidth : Rat)
    (s : MetricsState) : MetricsState × Bool :=
  if !parent then
    ({ s with metricsPos := FontMetricsSTART }, false)
  else
    let e := min (s.metricsPos + FontMetricsBATCH) FontMetricsMAX
    let fm := fun i =>
      if s.metricsPos ≤ i ∧ i < e then measuredFlag measure cellWidth i
      else s.fontMetrics i
    if e ≥ FontMetricsMAX then (⟨fm, FontMetricsSTART⟩, false)
    else (⟨fm, e⟩, true)

/-- Runs `_batchedMetrics` (with the helpers element present) `n` times from
state `s`, returning the final state and the list of returned booleans in
call order. -/
def probeRun (measure : Nat → Rat) (cellWidth : Rat) :
    Nat → MetricsState → MetricsState × List Bool
  | 0, s => (s, [])
  | n + 1, s =>
    let r := batchedMetrics true measure cellWidth s
    let rest := probeRun measure cellWidth n r.1
    (rest.1, r.2 :: rest.2)

/-- The closed form of the `_fontMetrics` table after the eight batch calls
that sweep `[32, 256)` (a proof-side characterization, shown below to equal
the table `probeRun` computes): entries in the swept range hold the measured
flag, entries below 32 keep the `0xFF` unknown marker of `_cacheMetrics`. -/
def probeTableAfter (measure : Nat → Rat) (cellWidth : Rat) : Nat → Nat := fun i =>
  if 242 ≤ i ∧ i < 256 then measuredFlag measure cellWidth i
  else if 212 ≤ i ∧ i < 242 then measuredFlag measure cellWidth i
  else if 182 ≤ i ∧ i < 212 then measuredFlag measure cellWidth i
  else if 152 ≤ i ∧ i < 182 then measuredFlag measure cellWidth i
  else if 122 ≤ i ∧ i < 152 then measuredFlag measure cellWidth i
  else if 92 ≤ i ∧ i < 122 then measuredFlag measure cellWidth i
  else if 62 ≤ i ∧ i < 92 then measuredFlag measure cellWidth i
  else if 32 ≤ i ∧ i < 62 then measuredFlag measure cellWidth i
  else 0xFF

/-! ## Row elements (`DomRenderer._refreshRowElements` / `handleResize`)

A row element is a `div` appended to the row container; the elements are
indistinguishable for the properties below, so they are modelled as `Unit`
and `_rowElements` as a `List Unit`. -/

/-- The grow loop `for (let i = this._rowElements.length; i <= rows; i++)`
of `_refreshRowElements`: appends one new element per iteration while the
length is at most `rows`. -/
def growRows (elems : List Unit) (rows : Nat) : List Unit :=
  if elems.length ≤ rows then growRows (elems ++ [()]) rows else elems
termination_by rows + 1 - elems.length
decreasing_by simp [List.length_append]; omega

/-- The shrink loop `while (this._rowElements.length > rows)` of
`_refreshRowElements`: pops from the end while the length exceeds `rows`. -/
def shrinkRows (elems : List Unit) (rows : Nat) : List Unit :=
  if elems.length > rows then shrinkRows elems.dropLast rows else elems
termination_by elems.length
decreasing_by rw [List.length_dropLast]; omega

/-- The body of `_refreshRowElements(cols, rows)`: the grow loop followed by the shrink
loop (the `cols` argument is unused by the source function's element count).
`handleResize(cols, rows)` calls this then `_updateDimensions()`. -/
def refreshRowElements (elems : List Unit) (rows : Nat) : List Unit :=
  shrinkRows (growRows elems rows) rows

/-! ## `ForegroundRenderLayer.render` (unnamed canvas renderer file)

Per-cell data: the source reads `line[x][CHAR_DATA_CODE_INDEX]` and
`line[x][CHAR_DATA_ATTR_INDEX]` (the char string and width are only passed on
to `fillText` and do not affect which drawing command is chosen, so they are
not modelled). -/

structure Cell where
  code : Nat
  attr : Nat
deriving DecidableEq, Repr

/-- Modelled from the spec: the `FLAGS` enum from `./Types` is not under
`src/`; the spec only lists `BOLD` as a member of the flags bitset, so the
bold bit is taken to be the least significant flag bit. The claims below
depend only on whether `flags & FLAGS.BOLD` is nonzero, not on the bit's
position. -/
def FLAGSBOLD : Nat := 1

/-- The decode `let fg = (attr >> 9) & 0x1ff;`. -/
def fgOf (attr : Nat) : Nat := (attr >>> 9) &&& 0x1ff

/-- The decode `const flags = attr >> 18;`. -/
def flagsOf (attr : Nat) : Nat := attr >>> 18

/-- The test `flags & FLAGS.BOLD` as a boolean. -/
def boldOf (attr : Nat) : Bool := flagsOf attr &&& FLAGSBOLD ≠ 0

/-- The foreground index after the bold remap
`if (flags & FLAGS.BOLD) { if (fg < 8) { fg += 8; } }`. -/
def effFg (attr : Nat) : Nat :=
  let fg := fgOf attr
  if boldOf attr ∧ fg < 8 then fg + 8 else fg

/-- The assignment `let colorIndex = 0; if (fg < 16) colorIndex = fg + 1`, applied to
the bold-remapped foreground index: the atlas color row used for the blit. -/
def colorIndex (attr : Nat) : Nat :=
  if effFg attr < 16 then effFg attr + 1 else 0

/-- The fill style chosen by `_drawUnicodeChar`:
`TANGO_COLORS[fg]` when `fg < 16`, else the default `#ffffff`. -/
inductive FillColor where
  | tango (i : Nat)
  | white
deriving DecidableEq, Repr

def fallbackFill (fg : Nat) : FillColor :=
  if fg < 16 then FillColor.tango fg else FillColor.white

/-- What the per-cell body of the render loop does for one cell:
skip (`if (!code) continue`), blit the atlas tile `(code, colorIndex)`
(`if (code < 256) drawImage(...)`), or draw directly via `_drawUnicodeChar`
with the bold-remapped foreground index (`else` branch). -/
inductive CellAction where
  | skip
  | blit (code colorIdx : Nat)
  | fallback (fg : Nat)
deriving DecidableEq, Repr

def cellAction (c : Cell) : CellAction :=
  if c.code = 0 then CellAction.skip
  else if c.code < 256 then CellAction.blit c.code (colorIndex c.attr)
  else CellAction.fallback (effFg c.attr)

/-- The drawing commands issued on the canvas context by `render`, with
coordinates in cell units (the source multiplies them by `scaledCharWidth` /
`scaledCharHeight` to get pixels): the band clear
`clearRect(0, startRow*h, w*cols, (endRow-startRow+1)*h)`, an atlas
`drawImage` of tile `(code, colorIdx)` at cell `(x, y)`, or a
`_drawUnicodeChar` fill at cell `(x, y)`. -/
inductive Command where
  | clearBand (startRow rowCount : Nat)
  | blit (code colorIdx x y : Nat)
  | fillGlyph (fg : Nat) (fill : FillColor) (x y : Nat)
deriving DecidableEq, Repr

/-- Whether a command draws a glyph at cell `(x, y)` (the band clear is not a
glyph draw). -/
def Command.drawsAt : Command → Nat → Nat → Bool
  | Command.clearBand _ _, _, _ => false
  | Command.blit _ _ cx cy, x, y => cx = x && cy = y
  | Command.fillGlyph _ _ cx cy, x, y => cx = x && cy = y

/-- The read-only terminal snapshot consumed by `render`: column count,
scroll offset `buffer.ydisp`, and the buffer lines
(`buffer.lines.get(row)[x]`). -/
structure TermState where
  cols : Nat
  ydisp : Nat
  line : Nat → Nat → Cell

/-- The command a cell contributes, tagged with its cell position. -/
def cellCommand (t : TermState) (x y : Nat) : Option Command :=
  match cellAction (t.line (y + t.ydisp) x) with
  | CellAction.skip => none
  | CellAction.blit c ci => some (Command.blit c ci x y)
  | CellAction.fallback fg => some (Command.fillGlyph fg (fallbackFill fg) x y)

/-- The method `ForegroundRenderLayer.render(terminal, startRow, endRow)` as the list of
canvas commands it issues. `charAtlas` is the `_charAtlas` field (`none`
models the `null` it holds until the generation promise resolves; the `Nat`
payload identifies the bitmap). When the atlas is absent the method returns
before touching the context; otherwise it clears the row band then walks rows
`startRow..endRow` and columns `0..cols-1`. -/
def render (charAtlas : Option Nat) (t : TermState) (startRow endRow : Nat) :
    List Command :=
  match charAtlas with
  | none => []
  | some _ =>
    Command.clearBand startRow (endRow - startRow + 1) ::
      (List.range (endRow + 1 - startRow)).flatMap (fun dy =>
        (List.range t.cols).filterMap (fun x => cellCommand t x (startRow + dy)))

/-! ## Atlas regeneration (`ForegroundRenderLayer.resize`)

`resize` with `charSizeChanged` sets `_charAtlas = null` and calls
`generate(...).then(bitmap => { this._charAtlas = bitmap; })`. There is no
request token: every resolution assigns `_charAtlas` unconditionally. The
events below model the atlas-related effects; request `k` is the `k`-th
`generate` call and `some k` stands for its bitmap. -/

structure AtlasState where
  charAtlas : Option Nat
  issued : Nat
deriving DecidableEq, Repr

inductive AtlasEvent where
  | request
  | resolve (id : Nat)
deriving DecidableEq, Repr

/-- One event: a `resize` with `charSizeChanged = true` nulls the atlas and
issues a fresh generation request; the promise of request `id` resolving runs
the `then` continuation, which installs that request's bitmap with no
staleness check. -/
def atlasStep (s : AtlasState) : AtlasEvent → AtlasState
  | AtlasEvent.request => ⟨none, s.issued + 1⟩
  | AtlasEvent.resolve id => ⟨some id, s.issued⟩

def atlasRun (es : List AtlasEvent) : AtlasState :=
  es.foldl atlasStep ⟨none, 0⟩

/-- A trace is valid when every `resolve id` names a request already issued
(ids are 1-based) and no request resolves twice; `issued` counts requests so
far and `resolved` collects ids already resolved. -/
def validTraceFrom (issued : Nat) (resolved : List Nat) :
    List AtlasEvent → Bool
  | [] => true
  | AtlasEvent.request :: es => validTraceFrom (issued + 1) resolved es
  | AtlasEvent.resolve id :: es =>
    (1 ≤ id && id ≤ issued && !resolved.contains id)
      && validTraceFrom issued (id :: resolved) es

def validTrace (es : List AtlasEvent) : Bool := validTraceFrom 0 [] es

/-! ## `CharAtlasGenerator.generate` geometry

`generate(charWidth, charHeight)` sets
`canvas.width = 255 * scaledCharWidth` and
`canvas.height = (1 + 16) * scaledCharHeight`, then draws
`String.fromCharCode(i)` at `x = i * scaledCharWidth` for every
`i ∈ [0, 256)` on each of the 17 color rows. -/

def atlasCanvasWidth (scaledCharWidth : Nat) : Nat := 255 * scaledCharWidth

def atlasCanvasHeight (scaledCharHeight : Nat) : Nat := (1 + 16) * scaledCharHeight

/-- The codes drawn on each atlas row (`for (let i = 0; i < 256; i++)`). -/
def atlasGlyphCodes : List Nat := List.range 256

/-- The x-coordinate at which glyph `i` is drawn
(`fillText(String.fromCharCode(i), i * scaledCharWidth, y)`). -/
def glyphDrawX (i scaledCharWidth : Nat) : Nat := i * scaledCharWidth

/-- The right edge of the tile the renderer reads for code `i`
(`drawImage(atlas, code * scaledCharWidth, ..., scaledCharWidth, ...)`). -/
def glyphTileRight (i scaledCharWidth : Nat) : Nat := (i + 1) * scaledCharWidth

/-! ## Helper lemmas -/

/-- The grow loop leaves `max (old length) (rows + 1)` elements: it runs
while `i ≤ rows`, so it overshoots the requested count by one. -/
theorem growRows_length (elems : List Unit) (rows : Nat) :
    (growRows elems rows).length = max elems.length (rows + 1) := by
  rw [growRows]
  split_ifs with h
  · rw [growRows_length (elems ++ [()]) rows]
    simp only [List.length_append, List.length_cons, List.length_nil]
    omega
  · omega
termination_by rows + 1 - elems.length
decreasing_by simp [List.length_append]; omega

/-- The shrink loop leaves `min (old length) rows` elements. -/
theorem shrinkRows_length (elems : List Unit) (rows : Nat) :
    (shrinkRows elems rows).length = min elems.length rows := by
  rw [shrinkRows]
  split_ifs with h
  · rw [shrinkRows_length elems.dropLast rows, List.length_dropLast]
    omega
  · omega
termination_by elems.length
decreasing_by rw [List.length_dropLast]; omega

/-- The measurement loop only ever writes `0` or `1`, never the `0xFF`
unknown marker. -/
theorem measuredFlag_ne_unknown (measure : Nat → Rat) (cellWidth : Rat)
    (i : Nat) : measuredFlag measure cellWidth i ≠ 0xFF := by
  simp only [measuredFlag]
  split <;> omega

/-! ## Claim theorems -/

/-- C3, counterexample. The trace "request atlas generation twice, then the
second request's bitmap resolves, then the first request's bitmap resolves"
is a legal promise-resolution order, yet it installs request 1's (stale)
bitmap even though request 2 was issued after request 1: the claim that a
result resolving after a newer request is never installed is false. -/
theorem atlas_stale_result_installed :
    validTrace [AtlasEvent.request, AtlasEvent.request,
      AtlasEvent.resolve 2, AtlasEvent.resolve 1] = true
    ∧ atlasRun [AtlasEvent.request, AtlasEvent.request,
        AtlasEvent.resolve 2, AtlasEvent.resolve 1]
      = ⟨some 1, 2⟩ := by
  constructor
  · rfl
  · rfl

/-- C3, amended: the `then` continuation of `generate` installs its bitmap
unconditionally — whichever generation resolves last wins, and a stale
resolution arriving after a newer request was issued is still installed (the
source carries no request token or staleness check). -/
theorem atlas_resolve_installs_unconditionally (s : AtlasState) (id : Nat) :
    (atlasStep s (AtlasEvent.resolve id)).charAtlas = some id := rfl

/-- C4: evaluated at `scaledCharWidth = scaledCharHeight = 1` (charWidth 1,
device pixel ratio 1), the atlas canvas is `17` tile rows high as the claim
says, but only `255` tile columns wide — not `256` — even though the
generator draws `256` glyphs per row and the glyph for code `255` needs a
tile ending at `256`, past the canvas's right edge. The width expression is
an off-by-one slip in the code. -/
theorem atlas_canvas_size_off_by_one :
    atlasCanvasHeight 1 = 17
    ∧ atlasCanvasWidth 1 = 255
    ∧ atlasCanvasWidth 1 ≠ 256 * 1
    ∧ atlasGlyphCodes.length = 256
    ∧ atlasCanvasWidth 1 < glyphTileRight 255 1
    ∧ glyphDrawX 255 1 ≥ atlasCanvasWidth 1 := by
  refine ⟨rfl, rfl, by decide, ?_, by decide, by decide⟩
  simp [atlasGlyphCodes]

/-- C8: when `_charAtlas` has not yet resolved (`none`), `render` returns
before touching the canvas context: it issues no clear and no draw command
(and the source method assigns no field on that path), so a retry on the next
frame sees unchanged state. -/
theorem render_noop_without_atlas (t : TermState) (startRow endRow : Nat) :
    render none t startRow endRow = [] := rfl

/-- C10: after `_refreshRowElements(cols, rows)` the renderer holds exactly
`rows` row elements: the grow loop runs while `i ≤ rows` and so overshoots to
`max (old length) (rows + 1)` elements, and the shrink loop then removes the
excess down to exactly `rows`, whether the terminal grew, shrank or kept its
size. -/
theorem refreshRowElements_count (elems : List Unit) (rows : Nat) :
    (growRows elems rows).length = max elems.length (rows + 1)
    ∧ (refreshRowElements elems rows).length = rows := by
  refine ⟨growRows_length elems rows, ?_⟩
  unfold refreshRowElements
  rw [shrinkRows_length, growRows_length]
  omega

/-- C2, counterexample. For the cell with code point `65` and attribute
`8192 = 16 << 9` (foreground index `16`, no flags), the render loop takes the
atlas blit branch `code < 256` with color row `0` — it does not take the
`_drawUnicodeChar` fallback, contrary to the claim that every cell with
`fgIndex >= 16` goes through the fallback regardless of its code point. -/
theorem extended_color_still_blits :
    16 ≤ fgOf 8192
    ∧ cellAction ⟨65, 8192⟩ = CellAction.blit 65 0
    ∧ cellAction ⟨65, 8192⟩ ≠ CellAction.fallback (fgOf 8192) := by
  refine ⟨by decide, by decide, by decide⟩

/-- C2, amended: for a cell with foreground index 16 or greater the effective
atlas color row is `0`, but the fallback path is taken only when the code
point is 256 or greater; a nonzero code point below 256 is still blitted from
the atlas at color row 0 (default foreground), and even the fallback paints
with the default white fill, not the cell's own color. -/
theorem extended_color_row_and_paths (c : Cell) (h : 16 ≤ fgOf c.attr) :
    colorIndex c.attr = 0
    ∧ (c.code ≠ 0 → c.code < 256 → cellAction c = CellAction.blit c.code 0)
    ∧ (256 ≤ c.code → cellAction c = CellAction.fallback (fgOf c.attr)
        ∧ fallbackFill (fgOf c.attr) = FillColor.white) := by
  have heff : effFg c.attr = fgOf c.attr := by
    simp only [effFg]
    rw [if_neg]
    rintro ⟨-, h8⟩
    omega
  have hci : colorIndex c.attr = 0 := by
    simp only [colorIndex, heff]
    rw [if_neg]
    omega
  refine ⟨hci, fun h0 h256 => ?_, fun h256 => ⟨?_, ?_⟩⟩
  · simp only [cellAction]
    rw [if_neg h0, if_pos h256, hci]
  · simp only [cellAction]
    rw [if_neg (by omega : ¬c.code = 0), if_neg (by omega : ¬c.code < 256), heff]
  · simp only [fallbackFill]
    rw [if_neg]
    omega

/-- C2, witness: the amended theorem applied to the cell with code point 300
and attribute `8192` (foreground index 16). -/
theorem extended_color_row_and_paths_witness :
    16 ≤ fgOf 8192
    ∧ (colorIndex 8192 = 0
       ∧ ((300 : Nat) ≠ 0 → (300 : Nat) < 256 →
           cellAction ⟨300, 8192⟩ = CellAction.blit 300 0)
       ∧ (256 ≤ 300 → cellAction ⟨300, 8192⟩ = CellAction.fallback (fgOf 8192)
           ∧ fallbackFill (fgOf 8192) = FillColor.white)) :=
  ⟨by decide, extended_color_row_and_paths ⟨300, 8192⟩ (by decide)⟩

/-- C7: with `BOLD` set and foreground index below 8 the bold remap adds 8
before the row lookup, so the atlas color row is `fgIndex + 8 + 1`; with
`BOLD` set and foreground index in `[8, 16)` the index is unchanged and the
row is `fgIndex + 1`; without `BOLD` the row is `fgIndex + 1` whenever
`fgIndex < 16`. -/
theorem bold_color_row (attr : Nat) :
    (boldOf attr = true →
      (fgOf attr < 8 → colorIndex attr = fgOf attr + 8 + 1)
      ∧ (8 ≤ fgOf attr → fgOf attr < 16 → colorIndex attr = fgOf attr + 1))
    ∧ (boldOf attr = false → fgOf attr < 16 → colorIndex attr = fgOf attr + 1) := by
  refine ⟨fun hb => ⟨fun h8 => ?_, fun h8 h16 => ?_⟩, fun hb h16 => ?_⟩
  · have heff : effFg attr = fgOf attr + 8 := by
      simp only [effFg]
      rw [if_pos ⟨hb, h8⟩]
    simp only [colorIndex, heff]
    rw [if_pos (by omega)]
  · have heff : effFg attr = fgOf attr := by
      simp only [effFg]
      rw [if_neg]
      rintro ⟨-, hlt⟩
      omega
    simp only [colorIndex, heff]
    rw [if_pos h16]
  · have heff : effFg attr = fgOf attr := by
      simp only [effFg]
      rw [if_neg]
      rintro ⟨hbb, -⟩
      simp [hb] at hbb
    simp only [colorIndex, heff]
    rw [if_pos h16]

/-- C7, witness: attribute `262656 = (1 << 18) + (1 << 9)` has the bold flag
set and foreground index 1, and its atlas color row is `1 + 8 + 1 = 10`. -/
theorem bold_color_row_witness :
    boldOf 262656 = true ∧ fgOf 262656 < 8
    ∧ colorIndex 262656 = fgOf 262656 + 8 + 1 :=
  ⟨by decide, by decide, ((bold_color_row 262656).1 (by decide)).1 (by decide)⟩

/-- The run of eight `_batchedMetrics` calls from the freshly reset state:
each of the first seven writes one 30-codepoint batch and reports more work,
the eighth writes the final 14-codepoint batch `[242, 256)`, rewinds the
cursor and reports completion; the table ends up in the closed form
`probeTableAfter`. -/
theorem probeRun_eight_eq (measure : Nat → Rat) (cw : Rat) :
    probeRun measure cw 8 cacheMetrics =
      (⟨probeTableAfter measure cw, 32⟩,
       [true, true, true, true, true, true, true, false]) := by
  have hsucc : ∀ (n : Nat) (s : MetricsState),
      probeRun measure cw (n + 1) s =
        ((probeRun measure cw n (batchedMetrics true measure cw s).1).1,
         (batchedMetrics true measure cw s).2
           :: (probeRun measure cw n (batchedMetrics true measure cw s).1).2) :=
    fun n s => rfl
  have hz : ∀ s, probeRun measure cw 0 s = (s, []) := fun _ => rfl
  have s32 : ∀ f, batchedMetrics true measure cw ⟨f, 32⟩ =
      (⟨fun i => if 32 ≤ i ∧ i < 62 then measuredFlag measure cw i else f i, 62⟩,
       true) := fun _ => rfl
  have s62 : ∀ f, batchedMetrics true measure cw ⟨f, 62⟩ =
      (⟨fun i => if 62 ≤ i ∧ i < 92 then measuredFlag measure cw i else f i, 92⟩,
       true) := fun _ => rfl
  have s92 : ∀ f, batchedMetrics true measure cw ⟨f, 92⟩ =
      (⟨fun i => if 92 ≤ i ∧ i < 122 then measuredFlag measure cw i else f i, 122⟩,
       true) := fun _ => rfl
  have s122 : ∀ f, batchedMetrics true measure cw ⟨f, 122⟩ =
      (⟨fun i => if 122 ≤ i ∧ i < 152 then measuredFlag measure cw i else f i, 152⟩,
       true) := fun _ => rfl
  have s152 : ∀ f, batchedMetrics true measure cw ⟨f, 152⟩ =
      (⟨fun i => if 152 ≤ i ∧ i < 182 then measuredFlag measure cw i else f i, 182⟩,
       true) := fun _ => rfl
  have s182 : ∀ f, batchedMetrics true measure cw ⟨f, 182⟩ =
      (⟨fun i => if 182 ≤ i ∧ i < 212 then measuredFlag measure cw i else f i, 212⟩,
       true) := fun _ => rfl
  have s212 : ∀ f, batchedMetrics true measure cw ⟨f, 212⟩ =
      (⟨fun i => if 212 ≤ i ∧ i < 242 then measuredFlag measure cw i else f i, 242⟩,
       true) := fun _ => rfl
  have s242 : ∀ f, batchedMetrics true measure cw ⟨f, 242⟩ =
      (⟨fun i => if 242 ≤ i ∧ i < 256 then measuredFlag measure cw i else f i, 32⟩,
       false) := fun _ => rfl
  rw [show (8 : Nat) = 7 + 1 from rfl, hsucc,
      show cacheMetrics = (⟨fun _ => 0xFF, 32⟩ : MetricsState) from rfl, s32]
  dsimp only
  rw [show (7 : Nat) = 6 + 1 from rfl, hsucc, s62]
  dsimp only
  rw [show (6 : Nat) = 5 + 1 from rfl, hsucc, s92]
  dsimp only
  rw [show (5 : Nat) = 4 + 1 from rfl, hsucc, s122]
  dsimp only
  rw [show (4 : Nat) = 3 + 1 from rfl, hsucc, s152]
  dsimp only
  rw [show (3 : Nat) = 2 + 1 from rfl, hsucc, s182]
  dsimp only
  rw [show (2 : Nat) = 1 + 1 from rfl, hsucc, s212]
  dsimp only
  rw [show (1 : Nat) = 0 + 1 from rfl, hsucc, s242]
  dsimp only
  rw [hz]
  rfl

/-- A per-cell command records the cell it came from: a command drawing at
cell `(x, y)` can only have been produced by column `x` of viewport row
`y`. -/
theorem cellCommand_drawsAt {t : TermState} {x' y' x y : Nat} {c : Command}
    (hc : cellCommand t x' y' = some c) (hd : c.drawsAt x y = true) :
    x' = x ∧ y' = y := by
  unfold cellCommand at hc
  cases hA : cellAction (t.line (y' + t.ydisp) x') with
  | skip => rw [hA] at hc; cases hc
  | blit cc ci =>
    rw [hA] at hc
    injection hc with h
    subst h
    simpa [Command.drawsAt] using hd
  | fallback fg =>
    rw [hA] at hc
    injection hc with h
    subst h
    simpa [Command.drawsAt] using hd

/-- C5, counterexample. With every measured width exactly `10` and cell
width `1`, eight batch calls from the all-unknown state still leave entry
`0` of the 256-entry table at the `0xFF` unknown marker (the probe sweeps
only `[32, 256)`), so the claim that no unknown entries remain in the table
is false. -/
theorem probe_leaves_unknown_entry :
    (probeRun (fun _ => (10 : Rat)) 1 8 cacheMetrics).1.fontMetrics 0 = 0xFF
    ∧ (0 : Nat) < 256 := by
  refine ⟨?_, by decide⟩
  rw [probeRun_eight_eq]
  rfl

/-- C5, amended: eight batch calls from the all-unknown state return `true`
on the first seven calls and `false` on the eighth, and leave no unknown
entry in the probed range `[32, 256)` — but entries `0..31` below
`FontMetrics.START` keep the `0xFF` unknown marker. -/
theorem probe_eight_batches (measure : Nat → Rat) (cw : Rat) :
    (probeRun measure cw 8 cacheMetrics).2
      = [true, true, true, true, true, true, true, false]
    ∧ (∀ i, 32 ≤ i → i < 256 →
        (probeRun measure cw 8 cacheMetrics).1.fontMetrics i ≠ 0xFF)
    ∧ (∀ i, i < 32 →
        (probeRun measure cw 8 cacheMetrics).1.fontMetrics i = 0xFF) := by
  rw [probeRun_eight_eq measure cw]
  refine ⟨rfl, fun i h1 h2 => ?_, fun i h => ?_⟩
  · dsimp only [probeTableAfter]
    split_ifs <;> first | exact measuredFlag_ne_unknown measure cw i | omega
  · dsimp only [probeTableAfter]
    split_ifs <;> omega

/-- C5, witness: with all widths `10` and cell width `1`, the amended
theorem gives a resolved entry at code point 40 and a still-unknown entry at
code point 1. -/
theorem probe_eight_batches_witness :
    (32 ≤ 40 ∧ 40 < 256
     ∧ (probeRun (fun _ => (10 : Rat)) 1 8 cacheMetrics).1.fontMetrics 40 ≠ 0xFF)
    ∧ (1 < 32
       ∧ (probeRun (fun _ => (10 : Rat)) 1 8 cacheMetrics).1.fontMetrics 1 = 0xFF) :=
  ⟨⟨by decide, by decide,
    (probe_eight_batches (fun _ => (10 : Rat)) 1).2.1 40 (by decide) (by decide)⟩,
   by decide,
   (probe_eight_batches (fun _ => (10 : Rat)) 1).2.2 1 (by decide)⟩

/-- C1, counterexample. For the same-row selection `start = (2,0)`,
`end = (1,0)` (no scroll, 3 rows, 4 columns, range mode), swapping start and
end changes the rectangle set, and the rectangles produced are a first-row
rectangle from column 2 to column 1 — width `(1 - 2) * cellWidth`, negative —
plus a degenerate middle band, not a single normalized positive-width
rectangle. -/
theorem selection_swap_not_normalized :
    computeRects (2, 0) (1, 0) false 0 3 4 ≠ computeRects (1, 0) (2, 0) false 0 3 4
    ∧ computeRects (2, 0) (1, 0) false 0 3 4
      = [⟨0, 2, 1, 1⟩, ⟨1, 0, 4, -1⟩] := by
  refine ⟨by decide, by decide⟩

/-- C1, amended: in range (non-column) mode `handleSelectionChanged` performs
no screen-order normalization — it uses `start` and `end` exactly as given —
so for any same-row selection visible in the viewport whose two columns
differ, swapping start and end yields a different rectangle set. -/
theorem selection_no_normalization (c1 c2 r ydisp rows cols : Int)
    (h0 : 0 ≤ r - ydisp) (h1 : r - ydisp ≤ rows - 1) (hc : c1 ≠ c2) :
    computeRects (c1, r) (c2, r) false ydisp rows cols
      ≠ computeRects (c2, r) (c1, r) false ydisp rows cols := by
  intro h
  have hmax : max (r - ydisp) 0 = r - ydisp := by omega
  have hmin : min (r - ydisp) (rows - 1) = r - ydisp := by omega
  have hcond : ¬(r - ydisp ≥ rows ∨ r - ydisp < 0) := by omega
  simp only [computeRects, hmax, hmin] at h
  rw [if_neg hcond, if_neg hcond] at h
  simp at h
  exact hc h.1

/-- C1, witness: the amended theorem applied to the same-row selection with
columns 5 and 3 on buffer row 2, scroll offset 1, 4 rows, 10 columns. -/
theorem selection_no_normalization_witness :
    (0 : Int) ≤ 2 - 1 ∧ (2 : Int) - 1 ≤ 4 - 1 ∧ ((5 : Int) ≠ 3)
    ∧ computeRects (5, 2) (3, 2) false 1 4 10
      ≠ computeRects (3, 2) (5, 2) false 1 4 10 :=
  ⟨by decide, by decide, by decide,
   selection_no_normalization 5 3 2 1 4 10 (by decide) (by decide) (by decide)⟩

/-- C6, counterexample. The range-mode same-row selection from column 1 to
column 2 on visible row 0 produces two selection elements — the first-row
rectangle plus a degenerate middle band (`rowCount = -1`) that the code
appends unconditionally — not exactly one. -/
theorem same_row_selection_two_rects :
    (computeRects (1, 0) (2, 0) false 0 3 4).length ≠ 1
    ∧ computeRects (1, 0) (2, 0) false 0 3 4
      = [⟨0, 1, 2, 1⟩, ⟨1, 0, 4, -1⟩] := by
  refine ⟨by decide, by decide⟩

/-- C6, amended: for selections whose clipped row range meets the viewport,
column mode yields exactly one rectangle; a range-mode selection whose capped
start and end rows coincide (in particular a visible same-row selection)
yields exactly two elements (the first-row rectangle plus the always-appended
degenerate middle band); a range-mode selection covering more than two
viewport rows yields exactly three. -/
theorem selection_rect_counts (sc sr ec er ydisp rows cols : Int)
    (h1 : max (sr - ydisp) 0 < rows) (h2 : 0 ≤ min (er - ydisp) (rows - 1)) :
    (computeRects (sc, sr) (ec, er) true ydisp rows cols).length = 1
    ∧ (max (sr - ydisp) 0 = min (er - ydisp) (rows - 1) →
        (computeRects (sc, sr) (ec, er) false ydisp rows cols).length = 2)
    ∧ (max (sr - ydisp) 0 + 2 ≤ min (er - ydisp) (rows - 1) →
        (computeRects (sc, sr) (ec, er) false ydisp rows cols).length = 3) := by
  have hcond : ¬(max (sr - ydisp) 0 ≥ rows ∨ min (er - ydisp) (rows - 1) < 0) := by
    omega
  refine ⟨?_, fun hsame => ?_, fun hmulti => ?_⟩
  · simp only [computeRects]
    rw [if_neg hcond, if_pos trivial]
    rfl
  · simp only [computeRects]
    rw [if_neg hcond, if_neg Bool.false_ne_true, if_neg (fun hne => hne hsame)]
    rfl
  · simp only [computeRects]
    rw [if_neg hcond, if_neg Bool.false_ne_true, if_pos (by omega :
      max (sr - ydisp) 0 ≠ min (er - ydisp) (rows - 1))]
    rfl

/-- C6, witness: the amended theorem applied to a column-mode/multi-row
selection from (1,0) to (2,5) in an 8-row viewport, and to the same-row
selection from (1,3) to (2,3). -/
theorem selection_rect_counts_witness :
    (max ((0 : Int) - 0) 0 < 8 ∧ (0 : Int) ≤ min ((5 : Int) - 0) (8 - 1)
     ∧ (computeRects (1, 0) (2, 5) true 0 8 10).length = 1
     ∧ max ((0 : Int) - 0) 0 + 2 ≤ min ((5 : Int) - 0) (8 - 1)
     ∧ (computeRects (1, 0) (2, 5) false 0 8 10).length = 3)
    ∧ (max ((3 : Int) - 0) 0 = min ((3 : Int) - 0) (8 - 1)
       ∧ (computeRects (1, 3) (2, 3) false 0 8 10).length = 2) :=
  ⟨⟨by decide, by decide,
    (selection_rect_counts 1 0 2 5 0 8 10 (by decide) (by decide)).1,
    by decide,
    (selection_rect_counts 1 0 2 5 0 8 10 (by decide) (by decide)).2.2 (by decide)⟩,
   by decide,
   (selection_rect_counts 1 3 2 3 0 8 10 (by decide) (by decide)).2.1 (by decide)⟩

/-- C9: a cell whose code point is 0 is skipped by the render loop: after the
band clear, no atlas blit and no fallback draw in the command stream targets
that cell's position, leaving it blank. -/
theorem zero_code_cell_not_drawn (a : Nat) (t : TermState)
    (startRow endRow x y : Nat) (h : (t.line (y + t.ydisp) x).code = 0) :
    ((render (some a) t startRow endRow).all fun c => !(c.drawsAt x y)) = true := by
  rw [List.all_eq_true]
  intro c hc
  simp only [render] at hc
  rcases List.mem_cons.mp hc with rfl | hc'
  · rfl
  · rcases List.mem_flatMap.mp hc' with ⟨dy, hdy, hmem⟩
    rcases List.mem_filterMap.mp hmem with ⟨x', hx', hcc⟩
    cases hdp : c.drawsAt x y with
    | false => simp [hdp]
    | true =>
      obtain ⟨hxx, hyy⟩ := cellCommand_drawsAt hcc hdp
      rw [hxx, hyy] at hcc
      have hskip : cellAction (t.line (y + t.ydisp) x) = CellAction.skip := by
        simp only [cellAction]
        rw [if_pos h]
      simp [cellCommand, hskip] at hcc

/-- C9, witness: in a one-column terminal whose only cell has code point 0,
rendering row 0 draws nothing at cell (0, 0). -/
theorem zero_code_cell_not_drawn_witness :
    ((⟨1, 0, fun _ _ => ⟨0, 0⟩⟩ : TermState).line (0 + 0) 0).code = 0
    ∧ ((render (some 0) ⟨1, 0, fun _ _ => ⟨0, 0⟩⟩ 0 0).all
        fun c => !(c.drawsAt 0 0)) = true :=
  ⟨rfl, zero_code_cell_not_drawn 0 ⟨1, 0, fun _ _ => ⟨0, 0⟩⟩ 0 0 0 0 rfl⟩
